import Mathlib

/-!
Verification of the Ollama + MCP connector (`src/Connector.py`).

The connector is shallowly embedded: Python values appearing in the data
flow are modelled by `PyVal`, the JSON decoding done by `json.loads` by
`json_loads`, the regex scans by explicit character-list scanners, and the
two HTTP gateways by functions over an environment `Nat → HttpAttempt`
describing what each successive network attempt would yield.  Machine
integers play no role; strings are Lean strings manipulated through their
character lists so that every definition evaluates by kernel reduction.
-/

set_option maxRecDepth 10000

namespace Connector

/-- A Python/JSON value as it flows through the connector.  Python's `None`
and JSON's `null` are identified (`json.loads` maps `null` to `None`). -/
inductive PyVal where
  | vnull : PyVal
  | vbool : Bool → PyVal
  | vnum : Int → PyVal
  | vstr : String → PyVal
  | varr : List PyVal → PyVal
  | vobj : List (String × PyVal) → PyVal

/-- Lookup in an association list keeping the LAST binding, matching the
semantics of a Python dict built by `json.loads` on duplicate keys. -/
def lookupLast (fields : List (String × PyVal)) (k : String) : Option PyVal :=
  match fields with
  | [] => none
  | (k2, v) :: rest =>
    match lookupLast rest k with
    | some w => some w
    | none => if k2 = k then some v else none

/-- Python truthiness (`bool(v)`) restricted to the values `PyVal` models. -/
def truthy : PyVal → Bool
  | PyVal.vnull => false
  | PyVal.vbool b => b
  | PyVal.vnum n => n != 0
  | PyVal.vstr s => s != ""
  | PyVal.varr l => !l.isEmpty
  | PyVal.vobj l => !l.isEmpty

/-- Python `v == s` for a string literal `s`: true exactly on the equal
string value. -/
def pyEqStr (v : PyVal) (s : String) : Bool :=
  match v with
  | PyVal.vstr t => t = s
  | _ => false

/-! ### Character and string helpers (ASCII fragment used by the source) -/

/-- Characters matched by the regex class `\s` (ASCII part). -/
def wsRe (c : Char) : Bool :=
  c = ' ' || c = '\t' || c = '\n' || c = '\r' || c = '\x0b' || c = '\x0c'

/-- Characters matched by the regex class `[A-Za-z ]`. -/
def clsCityChar (c : Char) : Bool :=
  ('A' ≤ c && c ≤ 'Z') || ('a' ≤ c && c ≤ 'z') || c = ' '

/-- `str.lower()` on the ASCII letters the connector compares. -/
def pyLower (s : String) : String :=
  String.mk (s.data.map Char.toLower)

/-- Drop leading whitespace characters from a character list. -/
def dropWsFront : List Char → List Char
  | [] => []
  | c :: rest => if wsRe c then dropWsFront rest else c :: rest

/-- `str.strip()`. -/
def pyStrip (s : String) : String :=
  String.mk (dropWsFront ((dropWsFront s.data.reverse).reverse))

/-- Does the second list start with the first? -/
def startsW : List Char → List Char → Bool
  | x :: xs, y :: ys => x = y && startsW xs ys
  | needle, _ => needle.isEmpty

/-- Does `hay` contain `needle` as a contiguous sublist? -/
def hasSub (needle : List Char) : List Char → Bool
  | [] => needle.isEmpty
  | c :: rest => startsW needle (c :: rest) || hasSub needle rest

/-- Python's `needle in hay` on strings. -/
def strHas (hay needle : String) : Bool :=
  hasSub needle.data hay.data

/-! ### A model of `json.loads`

A strict recursive-descent JSON reader over the character list, with a fuel
parameter bounding recursion depth; `json_loads` supplies fuel larger than
any possible number of recursive calls for the given input, so fuel
exhaustion never changes the answer on the inputs the connector feeds it. -/

/-- JSON insignificant whitespace. -/
def jsonWs (c : Char) : Bool :=
  c = ' ' || c = '\t' || c = '\n' || c = '\r'

/-- Skip JSON whitespace. -/
def skipWs : List Char → List Char
  | [] => []
  | c :: rest => if jsonWs c then skipWs rest else c :: rest

/-- Decimal digit test. -/
def isDig (c : Char) : Bool :=
  '0' ≤ c && c ≤ '9'

/-- Value of a hex digit, if any (by code point: `0`-`9`, `a`-`f`, `A`-`F`). -/
def hexDigitVal (c : Char) : Option Nat :=
  let n := c.toNat
  if 48 ≤ n && n ≤ 57 then some (n - 48)
  else if 97 ≤ n && n ≤ 102 then some (n - 87)
  else if 65 ≤ n && n ≤ 70 then some (n - 55)
  else none

/-- Four hex digits (a `\uXXXX` escape payload). -/
def parseHex4 : List Char → Option (Nat × List Char)
  | a :: b :: c :: d :: rest =>
    match hexDigitVal a, hexDigitVal b, hexDigitVal c, hexDigitVal d with
    | some x, some y, some z, some w => some (((x * 16 + y) * 16 + z) * 16 + w, rest)
    | _, _, _, _ => none
  | _ => none

/-- JSON string body after the opening quote; returns the decoded
characters and the input after the closing quote. -/
def pStr : Nat → List Char → Option (List Char × List Char)
  | 0, _ => none
  | _, [] => none
  | Nat.succ fuel, c :: rest =>
    if c = '"' then some ([], rest)
    else if c = '\\' then
      match rest with
      | [] => none
      | e :: rest2 =>
        let esc : Option (Char × List Char) :=
          if e = '"' then some ('"', rest2)
          else if e = '\\' then some ('\\', rest2)
          else if e = '/' then some ('/', rest2)
          else if e = 'b' then some ('\x08', rest2)
          else if e = 'f' then some ('\x0c', rest2)
          else if e = 'n' then some ('\n', rest2)
          else if e = 'r' then some ('\r', rest2)
          else if e = 't' then some ('\t', rest2)
          else if e = 'u' then
            match parseHex4 rest2 with
            | some (n, rest3) => some (Char.ofNat n, rest3)
            | none => none
          else none
        match esc with
        | some (ch, rest3) =>
          match pStr fuel rest3 with
          | some (s, r2) => some (ch :: s, r2)
          | none => none
        | none => none
    else if c.toNat < 32 then none
    else
      match pStr fuel rest with
      | some (s, r2) => some (c :: s, r2)
      | none => none

/-- Greedy run of decimal digits. -/
def grabDigits : List Char → List Char × List Char
  | [] => ([], [])
  | c :: rest =>
    if isDig c then
      let (g, r) := grabDigits rest
      (c :: g, r)
    else ([], c :: rest)

/-- Numeric value of a digit list. -/
def digitsVal (l : List Char) : Nat :=
  l.foldl (fun acc c => 10 * acc + (c.toNat - 48)) 0

/-- JSON number, starting at a `-` or a digit.  The stored `Int` is the
signed mantissa (integer digits followed by fraction digits); exponents are
validated and discarded.  This keeps integer literals exact and keeps
Python truthiness (`value != 0`) faithful, which is all the connector ever
observes of a number. -/
def pNum (l : List Char) : Option (Int × List Char) :=
  let (neg, l1) :=
    match l with
    | c :: rest => if c = '-' then (true, rest) else (false, l)
    | [] => (false, l)
  match l1 with
  | [] => none
  | c :: rest =>
    if !isDig c then none
    else
      let (intDigits, l2) :=
        if c = '0' then ([c], rest)
        else
          let (g, r) := grabDigits rest
          (c :: g, r)
      let (fracDigits, l3) :=
        match l2 with
        | '.' :: r =>
          match grabDigits r with
          | ([], _) => ([], l2)
          | (g, r2) => (g, r2)
        | _ => ([], l2)
      let okFrac : Bool :=
        match l2 with
        | '.' :: r => !(grabDigits r).1.isEmpty
        | _ => true
      let expOk : Option (List Char) :=
        match l3 with
        | e :: r =>
          if e = 'e' || e = 'E' then
            let r2 :=
              match r with
              | s :: r3 => if s = '+' || s = '-' then r3 else r
              | [] => r
            match grabDigits r2 with
            | ([], _) => none
            | (_, r3) => some r3
          else some l3
        | [] => some l3
      if !okFrac then none
      else
        match expOk with
        | none => none
        | some l4 =>
          let m : Int := Int.ofNat (digitsVal (intDigits ++ fracDigits))
          some (if neg then -m else m, l4)

mutual

/-- JSON value (leading whitespace allowed). -/
def pVal : Nat → List Char → Option (PyVal × List Char)
  | 0, _ => none
  | Nat.succ fuel, l =>
    match skipWs l with
    | [] => none
    | c :: rest =>
      if c = '{' then
        match skipWs rest with
        | '}' :: r2 => some (PyVal.vobj [], r2)
        | r2 => pMembers fuel r2 []
      else if c = '[' then
        match skipWs rest with
        | ']' :: r2 => some (PyVal.varr [], r2)
        | r2 => pItems fuel r2 []
      else if c = '"' then
        match pStr fuel rest with
        | some (s, r2) => some (PyVal.vstr (String.mk s), r2)
        | none => none
      else if c = 't' then
        if startsW ['r', 'u', 'e'] rest then some (PyVal.vbool true, rest.drop 3) else none
      else if c = 'f' then
        if startsW ['a', 'l', 's', 'e'] rest then some (PyVal.vbool false, rest.drop 4) else none
      else if c = 'n' then
        if startsW ['u', 'l', 'l'] rest then some (PyVal.vnull, rest.drop 3) else none
      else if c = '-' || isDig c then
        match pNum (c :: rest) with
        | some (n, r2) => some (PyVal.vnum n, r2)
        | none => none
      else none

/-- Object members, positioned at a key (after `{` or a `,`). -/
def pMembers : Nat → List Char → List (String × PyVal) →
    Option (PyVal × List Char)
  | 0, _, _ => none
  | Nat.succ fuel, l, acc =>
    match skipWs l with
    | '"' :: rest =>
      match pStr fuel rest with
      | some (k, r2) =>
        match skipWs r2 with
        | ':' :: r3 =>
          match pVal fuel r3 with
          | some (v, r4) =>
            let acc2 := acc ++ [(String.mk k, v)]
            match skipWs r4 with
            | ',' :: r5 => pMembers fuel r5 acc2
            | '}' :: r5 => some (PyVal.vobj acc2, r5)
            | _ => none
          | none => none
        | _ => none
      | none => none
    | _ => none

/-- Array items, positioned at a value (after `[` or a `,`). -/
def pItems : Nat → List Char → List PyVal → Option (PyVal × List Char)
  | 0, _, _ => none
  | Nat.succ fuel, l, acc =>
    match pVal fuel l with
    | some (v, r2) =>
      let acc2 := acc ++ [v]
      match skipWs r2 with
      | ',' :: r3 => pItems fuel r3 acc2
      | ']' :: r3 => some (PyVal.varr acc2, r3)
      | _ => none
    | none => none

end

/-- `json.loads`: the whole string must be one JSON value surrounded only
by whitespace. -/
def json_loads (s : String) : Option PyVal :=
  match pVal (4 * s.data.length + 16) s.data with
  | some (v, rest) =>
    match skipWs rest with
    | [] => some v
    | _ => none
  | none => none

/-! ### `detect_tool_call` (Connector.py lines 75-85) -/

/-- Suffix of the input starting at its first `'\x7b'`, if any. -/
def fromFirstOpen : List Char → Option (List Char)
  | [] => none
  | c :: rest => if c = '{' then some (c :: rest) else fromFirstOpen rest

/-- Prefix of the input up to and including its first `'\x7d'`, if any. -/
def upToFirstClose : List Char → Option (List Char)
  | [] => none
  | c :: rest =>
    if c = '}' then some [c]
    else
      match upToFirstClose rest with
      | some l => some (c :: l)
      | none => none

/-- The match of the lazy regex `\x5c\x7b[\s\S]*?\x5c\x7d` on `text`: from
the first open brace to the first close brace after it.  (When no close
brace follows the first open brace, no close brace follows any later open
brace either, so the scan fails everywhere.) -/
def jsonBlock (text : String) : Option String :=
  match fromFirstOpen text.data with
  | some suffix =>
    match upToFirstClose suffix with
    | some l => some (String.mk l)
    | none => none
  | none => none

/-- `detect_tool_call(text)`: find the lazy brace block, `json.loads` it,
and if it is an object carrying both a `name` and an `arguments` key,
return that pair; any failure gives `(None, None)`. -/
def detect_tool_call (text : String) : PyVal × PyVal :=
  match jsonBlock text with
  | some block =>
    match json_loads block with
    | some (PyVal.vobj fields) =>
      match lookupLast fields "name", lookupLast fields "arguments" with
      | some n, some a => (n, a)
      | _, _ => (PyVal.vnull, PyVal.vnull)
    | _ => (PyVal.vnull, PyVal.vnull)
  | none => (PyVal.vnull, PyVal.vnull)

/-! ### City extraction (Connector.py lines 128-129)

`re.findall(r"in\s+([A-Za-z ]+)", user_input)[0]` followed by `.strip()`:
the scanners below implement the leftmost match with the engine's greedy
backtracking between `\s+` and `[A-Za-z ]+` (both classes contain the
space character, so on failure the space given back by `\s+` can start the
capture group). -/

/-- Greedy run of `[A-Za-z ]` characters. -/
def grabCls : List Char → List Char × List Char
  | [] => ([], [])
  | c :: rest =>
    if clsCityChar c then
      let (g, r) := grabCls rest
      (c :: g, r)
    else ([], c :: rest)

/-- `[A-Za-z ]+` at the current position (at least one character). -/
def clsMatch (l : List Char) : Option (List Char) :=
  match l with
  | [] => none
  | c :: rest => if clsCityChar c then some (c :: (grabCls rest).1) else none

/-- Continuation of `\s+` (one whitespace already consumed): greedily
extend the whitespace run, backtracking to start the capture group one
character earlier when the continuation fails. -/
def wsLoop : List Char → Option (List Char)
  | [] => none
  | c :: rest =>
    if wsRe c then
      match wsLoop rest with
      | some g => some g
      | none => clsMatch (c :: rest)
    else clsMatch (c :: rest)

/-- `\s+([A-Za-z ]+)` at the current position. -/
def afterIn : List Char → Option (List Char)
  | [] => none
  | c :: rest => if wsRe c then wsLoop rest else none

/-- Leftmost match of `in\s+([A-Za-z ]+)`: the capture group of the first
position where the whole pattern matches. -/
def scanIn : List Char → Option (List Char)
  | [] => none
  | c :: rest =>
    if c = 'i' then
      match rest with
      | d :: rest2 =>
        if d = 'n' then
          match afterIn rest2 with
          | some g => some g
          | none => scanIn rest
        else scanIn rest
      | [] => none
    else scanIn rest

/-- Configured default city (Connector.py line 25). -/
def DEFAULT_CITY : String := "Chennai"

/-- City resolved by the heuristic weather fallback:
`city_match[0].strip() if city_match else DEFAULT_CITY`. -/
def extract_city (user_input : String) : String :=
  match scanIn user_input.data with
  | some g => pyStrip (String.mk g)
  | none => DEFAULT_CITY

/-! ### Intent resolution (Connector.py lines 122-140) -/

/-- The per-turn intent resolution: `detect_tool_call` on the model output,
then — when the detected tool is falsy — the heuristic fallback on the
user input, then the `if not tool: continue` guard; `some (tool, args)` is
the invocation the loop dispatches, `none` means no dispatch this turn. -/
def resolveIntent (user_input model_output : String) : Option (PyVal × PyVal) :=
  let p := detect_tool_call model_output
  let q :=
    if truthy p.fst then p
    else if strHas (pyLower user_input) "weather" then
      (PyVal.vstr "get_weather",
        PyVal.vobj [("city", PyVal.vstr (extract_city user_input))])
    else if strHas (pyLower user_input) "notify" || strHas (pyLower user_input) "alert" then
      (PyVal.vstr "send_notification",
        PyVal.vobj [("notification_input", PyVal.vstr (user_input ++ "|general_alerts"))])
    else p
  if truthy q.fst then some q else none

/-! ### Result-text extraction (Connector.py lines 145-149)

`mcp_response.get("result", \x7b\x7d).get("content", [\x7b\x7d])[0].get("text", "")`
evaluated with Python semantics: `Except.error` marks the exceptions the
expression can raise (they propagate to the loop-boundary handler). -/

/-- The text-extraction expression; `Except.error` names the Python
exception class the corresponding step raises. -/
def extractText (resp : PyVal) : Except String PyVal :=
  match resp with
  | PyVal.vobj fs =>
    match (lookupLast fs "result").getD (PyVal.vobj []) with
    | PyVal.vobj fs2 =>
      match (lookupLast fs2 "content").getD (PyVal.varr [PyVal.vobj []]) with
      | PyVal.varr [] => Except.error "IndexError"
      | PyVal.varr (first :: _) =>
        match first with
        | PyVal.vobj fs3 => Except.ok ((lookupLast fs3 "text").getD (PyVal.vstr ""))
        | _ => Except.error "AttributeError"
      | PyVal.vstr s =>
        match s.data with
        | [] => Except.error "IndexError"
        | _ :: _ => Except.error "AttributeError"
      | PyVal.vobj _ => Except.error "KeyError"
      | _ => Except.error "TypeError"
    | _ => Except.error "AttributeError"
  | _ => Except.error "AttributeError"

/-! ### Alert policy (Connector.py lines 150-165 and line 24) -/

/-- The alert keyword set (Connector.py line 24). -/
def ALERT_KEYWORDS : List String := ["rain", "drizzle", "shower", "storm"]

/-- Does the alert policy fire?  The loop reaches the policy only past the
`if not text: continue` guard, and the policy itself requires
`tool == "get_weather"` and an alert keyword in `text.lower()`. -/
def alertFires (tool : PyVal) (text : String) : Bool :=
  if text = "" then false
  else pyEqStr tool "get_weather" && ALERT_KEYWORDS.any (fun k => strHas (pyLower text) k)

/-- The secondary invocation the policy dispatches when it fires. -/
def alertInvocation (tool : PyVal) (text : String) : Option (String × PyVal) :=
  if alertFires tool text then
    some ("send_notification",
      PyVal.vobj [("notification_input", PyVal.vstr (text ++ "|weather_alerts"))])
  else none

/-! ### Gateway clients (Connector.py lines 36-47 and 52-70)

The network is abstracted as an environment `Nat → HttpAttempt` giving,
for each successive `requests.post` the client would issue, either a
raised transport exception or a reply with a status code, a body text, and
the result of attempting `r.json()` on that body (`none` when the body is
not JSON). -/

/-- Outcome of one `requests.post` attempt as the client observes it. -/
inductive HttpAttempt where
  | exn : HttpAttempt
  | resp : Nat → String → Option PyVal → HttpAttempt

/-- One `ask_ollama` loop iteration: `r.json()` then
`data.get("response", r.text)`, with every raised exception (transport,
unparsable body, `.get` on a non-dict) collapsing to `none`, the retry
path.  The status code is never consulted. -/
def ollamaAttempt : HttpAttempt → Option PyVal
  | HttpAttempt.exn => none
  | HttpAttempt.resp _ body parsed =>
    match parsed with
    | some (PyVal.vobj fields) =>
      match lookupLast fields "response" with
      | some v => some v
      | none => some (PyVal.vstr body)
    | some _ => none
    | none => none

/-- One `call_mcp_tool` loop iteration: a 200 status returns `r.json()`;
a non-200 status is logged and retried; a raised exception (transport or
unparsable 200 body) is retried. -/
def mcpAttempt : HttpAttempt → Option PyVal
  | HttpAttempt.exn => none
  | HttpAttempt.resp status _ parsed =>
    if status = 200 then
      match parsed with
      | some v => some v
      | none => none
    else none

/-- The shared `for attempt in range(max_retries)` skeleton of both
gateways: starting at attempt index `i` with `fuel` attempts left, return
the first attempt's extracted value paired with the total number of
requests made, or the fallback value after exhausting every attempt. -/
def retryLoop (step : Nat → Option PyVal) (fallback : PyVal) :
    Nat → Nat → PyVal × Nat
  | i, 0 => (fallback, i)
  | i, Nat.succ fuel =>
    match step i with
    | some v => (v, i + 1)
    | none => retryLoop step fallback (i + 1) fuel

/-- Sentinel returned by `ask_ollama` after exhausting its retries. -/
def OLLAMA_SENTINEL : String := "[Error: Ollama request failed after retries]"

/-- `ask_ollama(prompt, max_retries)` over the attempt environment `env`:
the returned value and the number of requests issued.  The prompt only
shapes the outgoing payload, which `env` already accounts for. -/
def ask_ollama (_prompt : String) (env : Nat → HttpAttempt) (max_retries : Nat) :
    PyVal × Nat :=
  retryLoop (fun i => ollamaAttempt (env i)) (PyVal.vstr OLLAMA_SENTINEL) 0 max_retries

/-- `call_mcp_tool(tool, args, max_retries)` over the attempt environment
`env`: the returned response and the number of requests issued. -/
def call_mcp_tool (tool : String) (env : Nat → HttpAttempt) (max_retries : Nat) :
    PyVal × Nat :=
  retryLoop (fun i => mcpAttempt (env i))
    (PyVal.vobj [("error", PyVal.vstr ("MCP call failed for " ++ tool))]) 0 max_retries

/-! ### Session loop skeleton (Connector.py lines 108-183)

For the temporal claim the body of a turn is abstracted to its outcome:
it either runs to completion (possibly dispatching nothing), raises
`KeyboardInterrupt`, or raises any other exception.  What the `while True`
/ `try` / `except` skeleton does with each outcome is embedded exactly. -/

/-- How the body of one turn ends. -/
inductive TurnOutcome where
  | normal : TurnOutcome
  | raisesExn : TurnOutcome
  | raisesKI : TurnOutcome
  deriving DecidableEq

/-- One scripted turn: the line the user entered (`input()` before
`.strip()`) and how the body behaves if it runs. -/
structure TurnEvent where
  input : String
  outcome : TurnOutcome

/-- The exit test: `user_input.strip().lower() in set-of exit, quit`. -/
def isExit (s : String) : Bool :=
  pyLower (pyStrip s) = "exit" || pyLower (pyStrip s) = "quit"

/-- What one iteration of the `while True` loop decides. -/
inductive StepResult where
  | endSession : StepResult
  | nextTurn : StepResult

/-- One loop iteration: the exit keywords `break`; `KeyboardInterrupt`
is caught by its dedicated handler and `break`s; every other exception is
caught by the generic handler, logged, and `continue`s; a normal turn
falls through to the next iteration. -/
def chatStep (e : TurnEvent) : StepResult :=
  if isExit e.input then StepResult.endSession
  else
    match e.outcome with
    | TurnOutcome.raisesKI => StepResult.endSession
    | TurnOutcome.raisesExn => StepResult.nextTurn
    | TurnOutcome.normal => StepResult.nextTurn

/-- Does a turn end the session? -/
def haltsTurn (e : TurnEvent) : Bool :=
  isExit e.input || e.outcome = TurnOutcome.raisesKI

/-- Run the loop over a script of turns: `some i` means the session ended
at turn `i`; `none` means every scripted turn was consumed and the loop is
again awaiting input. -/
def chatLoop : List TurnEvent → Option Nat
  | [] => none
  | e :: es =>
    match chatStep e with
    | StepResult.endSession => some 0
    | StepResult.nextTurn => Option.map (fun n => n + 1) (chatLoop es)

/-! ## Helper lemmas -/

/-- If the first `N` attempts from `i` fail and attempt `i + N` yields `v`
within the fuel bound, the loop stops there having made `N + 1` further
requests. -/
theorem retryLoop_success (step : Nat → Option PyVal) (fb : PyVal) :
    ∀ (N i fuel : Nat) (v : PyVal),
      (∀ j, j < N → step (i + j) = none) → step (i + N) = some v → N < fuel →
      retryLoop step fb i fuel = (v, i + N + 1) := by
  intro N
  induction N with
  | zero =>
    intro i fuel v _ hN hlt
    match fuel, hlt with
    | Nat.succ f, _ =>
      simp only [Nat.add_zero] at hN
      simp only [retryLoop, hN]
  | succ n ih =>
    intro i fuel v hfail hN hlt
    match fuel, hlt with
    | Nat.succ f, hlt =>
      have h0 : step i = none := by
        have := hfail 0 (Nat.succ_pos n)
        simpa using this
      have hfail2 : ∀ j, j < n → step (i + 1 + j) = none := by
        intro j hj
        have heq : i + 1 + j = i + (j + 1) := by omega
        rw [heq]
        exact hfail (j + 1) (by omega)
      have hN2 : step (i + 1 + n) = some v := by
        have heq : i + 1 + n = i + (n + 1) := by omega
        rw [heq]; exact hN
      have hrec := ih (i + 1) f v hfail2 hN2 (by omega)
      simp only [retryLoop, h0, hrec]
      have heq : i + 1 + n + 1 = i + (n + 1) + 1 := by omega
      rw [heq]

/-- If every attempt within the fuel bound fails, the loop returns the
fallback having made exactly `fuel` further requests. -/
theorem retryLoop_exhaust (step : Nat → Option PyVal) (fb : PyVal) :
    ∀ (fuel i : Nat), (∀ j, j < fuel → step (i + j) = none) →
      retryLoop step fb i fuel = (fb, i + fuel) := by
  intro fuel
  induction fuel with
  | zero => intro i _; simp [retryLoop]
  | succ f ih =>
    intro i hfail
    have h0 : step i = none := by
      have := hfail 0 (Nat.succ_pos f)
      simpa using this
    have hrec := ih (i + 1) (by
      intro j hj
      have heq : i + 1 + j = i + (j + 1) := by omega
      rw [heq]
      exact hfail (j + 1) (by omega))
    simp only [retryLoop, h0, hrec]
    have heq : i + 1 + f = i + (f + 1) := by omega
    rw [heq]

/-- `pyEqStr` decides equality with a string value. -/
theorem pyEqStr_iff (v : PyVal) (s : String) :
    pyEqStr v s = true ↔ v = PyVal.vstr s := by
  cases v <;> simp [pyEqStr]

/-! ## Claims -/

/-- Claim C5: `ask_ollama` with retry bound 3 never raises: if the first
`N` attempts fail with a transport failure and `N < 3` while attempt
`N + 1` succeeds, exactly `N + 1` requests are made and that response is
returned; if all 3 attempts fail, exactly 3 requests are made and the
sentinel error string is returned. -/
theorem C5_ollama_retry_bound :
    ∀ (prompt : String) (env : Nat → HttpAttempt) (N : Nat) (v : PyVal),
      ((∀ j, j < N → ollamaAttempt (env j) = none) →
        ollamaAttempt (env N) = some v → N < 3 →
        ask_ollama prompt env 3 = (v, N + 1)) ∧
      ((∀ j, j < 3 → ollamaAttempt (env j) = none) →
        ask_ollama prompt env 3 =
          (PyVal.vstr "[Error: Ollama request failed after retries]", 3)) := by
  intro prompt env N v
  constructor
  · intro hfail hN hlt
    have h := retryLoop_success (fun i => ollamaAttempt (env i))
      (PyVal.vstr OLLAMA_SENTINEL) N 0 3 v
      (by intro j hj; simpa using hfail j hj)
      (by simpa using hN) hlt
    simpa [ask_ollama, OLLAMA_SENTINEL] using h
  · intro hfail
    have h := retryLoop_exhaust (fun i => ollamaAttempt (env i))
      (PyVal.vstr OLLAMA_SENTINEL) 3 0
      (by intro j hj; simpa using hfail j hj)
    simpa [ask_ollama, OLLAMA_SENTINEL] using h

/-- Environment for the C5 witness: one transport failure, then a parsed
success. -/
def envC5 : Nat → HttpAttempt := fun i =>
  if i = 0 then HttpAttempt.exn
  else HttpAttempt.resp 200 "body" (some (PyVal.vobj [("response", PyVal.vstr "hello")]))

/-- Witness for C5 at a concrete environment. -/
theorem C5_witness : ask_ollama "hi" envC5 3 = (PyVal.vstr "hello", 2) := by
  have h := (C5_ollama_retry_bound "hi" envC5 1 (PyVal.vstr "hello")).1
  exact h (by intro j hj; interval_cases j; rfl) rfl (by omega)

/-- Claim C6: `call_mcp_tool` never raises: every attempt that returns a
non-200 status or throws is retried, bounded at the default retry count 2;
after exhausting all attempts it returns an error-tagged object with
exactly 2 requests made; a 200-status attempt is returned immediately as
the parsed response. -/
theorem C6_mcp_retry_bound :
    ∀ (tool : String) (env : Nat → HttpAttempt) (N : Nat) (body : String) (v : PyVal),
      ((∀ j, j < N → mcpAttempt (env j) = none) →
        env N = HttpAttempt.resp 200 body (some v) → N < 2 →
        call_mcp_tool tool env 2 = (v, N + 1)) ∧
      ((∀ j, j < 2 → mcpAttempt (env j) = none) →
        call_mcp_tool tool env 2 =
          (PyVal.vobj [("error", PyVal.vstr ("MCP call failed for " ++ tool))], 2)) ∧
      (∀ (status : Nat) (b : String) (p : Option PyVal), status ≠ 200 →
        mcpAttempt (HttpAttempt.resp status b p) = none) ∧
      mcpAttempt HttpAttempt.exn = none := by
  intro tool env N body v
  refine ⟨?_, ?_, ?_, rfl⟩
  · intro hfail hN hlt
    have hstep : mcpAttempt (env N) = some v := by
      rw [hN]; simp [mcpAttempt]
    have h := retryLoop_success (fun i => mcpAttempt (env i))
      (PyVal.vobj [("error", PyVal.vstr ("MCP call failed for " ++ tool))]) N 0 2 v
      (by intro j hj; simpa using hfail j hj)
      (by simpa using hstep) hlt
    simpa [call_mcp_tool] using h
  · intro hfail
    have h := retryLoop_exhaust (fun i => mcpAttempt (env i))
      (PyVal.vobj [("error", PyVal.vstr ("MCP call failed for " ++ tool))]) 2 0
      (by intro j hj; simpa using hfail j hj)
    simpa [call_mcp_tool] using h
  · intro status b p hstatus
    simp [mcpAttempt, hstatus]

/-- Environment for the C6 witness: HTTP 500 on every attempt. -/
def envC6a : Nat → HttpAttempt := fun _ => HttpAttempt.resp 500 "oops" none

/-- Environment for the C6 witness: one HTTP 500, then a parsed 200. -/
def envC6b : Nat → HttpAttempt := fun i =>
  if i = 0 then HttpAttempt.resp 500 "oops" (some (PyVal.vstr "ignored"))
  else HttpAttempt.resp 200 "ok" (some (PyVal.vobj [("result", PyVal.vstr "r")]))

/-- Witness for C6 at concrete environments: exhaustion on persistent 500s
and immediate return on a 200. -/
theorem C6_witness :
    call_mcp_tool "get_weather" envC6a 2 =
      (PyVal.vobj [("error", PyVal.vstr "MCP call failed for get_weather")], 2) ∧
    call_mcp_tool "get_weather" envC6b 2 =
      (PyVal.vobj [("result", PyVal.vstr "r")], 2) := by
  constructor
  · have h := (C6_mcp_retry_bound "get_weather" envC6a 0 "" PyVal.vnull).2.1
    exact h (by intro j hj; interval_cases j <;> rfl)
  · have h := (C6_mcp_retry_bound "get_weather" envC6b 1 "ok"
      (PyVal.vobj [("result", PyVal.vstr "r")])).1
    exact h (by intro j hj; interval_cases j; rfl) rfl (by omega)

/-- Claim C10 (amended): `ask_ollama` never inspects the status code — any
reply whose body parses as a JSON object is accepted as success on the
first attempt regardless of status, and when the object lacks a
`response` key the raw body text is returned verbatim, without any
retry. -/
theorem C10_status_ignored :
    ∀ (prompt body : String) (env : Nat → HttpAttempt) (status : Nat)
      (fields : List (String × PyVal)),
      env 0 = HttpAttempt.resp status body (some (PyVal.vobj fields)) →
      ask_ollama prompt env 3 =
        ((lookupLast fields "response").getD (PyVal.vstr body), 1) := by
  intro prompt body env status fields h
  show retryLoop _ _ 0 3 = _
  simp only [retryLoop, h, ollamaAttempt]
  cases hl : lookupLast fields "response" <;> simp [hl]

/-- Environment for the C10 counterexample: first reply parses as a JSON
array, second as an object. -/
def envC10 : Nat → HttpAttempt := fun i =>
  if i = 0 then HttpAttempt.resp 200 "[1, 2]" (some (PyVal.varr [PyVal.vnum 1, PyVal.vnum 2]))
  else HttpAttempt.resp 200 "x" (some (PyVal.vobj [("response", PyVal.vstr "second")]))

/-- Counterexample to C10 as stated: a body parsing as JSON (an array) is
NOT accepted as success — `data.get` raises, the attempt is retried, and
the second attempt's value is returned after 2 requests. -/
theorem C10_cex :
    ollamaAttempt (envC10 0) = none ∧
    ask_ollama "p" envC10 3 = (PyVal.vstr "second", 2) :=
  ⟨rfl, rfl⟩

/-- Environment for the C10 witness: a 500-status JSON error page. -/
def envC10w : Nat → HttpAttempt := fun _ =>
  HttpAttempt.resp 500 "\x7b\"error\": \"boom\"\x7d"
    (some (PyVal.vobj [("error", PyVal.vstr "boom")]))

/-- Witness for C10 (amended): a JSON error page served with status 500 is
returned verbatim as the completion after a single request. -/
theorem C10_witness :
    ask_ollama "p" envC10w 3 = (PyVal.vstr "\x7b\"error\": \"boom\"\x7d", 1) := by
  have h := C10_status_ignored "p" "\x7b\"error\": \"boom\"\x7d" envC10w 500
    [("error", PyVal.vstr "boom")] rfl
  exact h

/-- Claim C1 (amended): whenever `detect_tool_call` extracts a pair whose
name is truthy — i.e. the lazy brace block of the model text parses as a
JSON object with a truthy `name` and an `arguments` key — the resolver
returns exactly that pair, regardless of heuristic-triggering words in the
user input. -/
theorem C1_structured_wins_amended :
    ∀ (u m : String) (n a : PyVal),
      detect_tool_call m = (n, a) → truthy n = true →
      resolveIntent u m = some (n, a) := by
  intro u m n a hdet htr
  simp [resolveIntent, hdet, htr]

/-- Counterexample to C1 as stated: the model text carries the well-formed
nested-brace object with name `get_weather` and arguments city `Paris`,
but the lazy regex truncates it at the first close brace, parsing fails,
and the heuristic resolves city `Chennai` instead of the structured
arguments. -/
theorem C1_cex :
    detect_tool_call
        "\x7b\"name\": \"get_weather\", \"arguments\": \x7b\"city\": \"Paris\"\x7d\x7d" =
      (PyVal.vnull, PyVal.vnull) ∧
    resolveIntent "what is the weather"
        "\x7b\"name\": \"get_weather\", \"arguments\": \x7b\"city\": \"Paris\"\x7d\x7d" =
      some (PyVal.vstr "get_weather", PyVal.vobj [("city", PyVal.vstr "Chennai")]) :=
  ⟨rfl, rfl⟩

/-- Witness for C1 (amended): a flat structured call wins over the
heuristic words in the user input. -/
theorem C1_witness :
    resolveIntent "weather in London"
        "Calling \x7b\"name\": \"get_weather\", \"arguments\": \"Paris\"\x7d now" =
      some (PyVal.vstr "get_weather", PyVal.vstr "Paris") :=
  C1_structured_wins_amended "weather in London"
    "Calling \x7b\"name\": \"get_weather\", \"arguments\": \"Paris\"\x7d now"
    (PyVal.vstr "get_weather") (PyVal.vstr "Paris") rfl rfl

/-- Claim C2 (amended): extracting the result text yields the empty string
when the `result` key is absent, when `result` is an object without
`content`, or when the first content element is an object without `text`;
but a present-and-empty `content` list raises `IndexError` (caught only at
the loop boundary), contrary to the claim as stated. -/
theorem C2_extraction_amended :
    ∀ (fs fs2 fs3 : List (String × PyVal)) (rest : List PyVal),
      (lookupLast fs "result" = none →
        extractText (PyVal.vobj fs) = Except.ok (PyVal.vstr "")) ∧
      (lookupLast fs "result" = some (PyVal.vobj fs2) →
        lookupLast fs2 "content" = none →
        extractText (PyVal.vobj fs) = Except.ok (PyVal.vstr "")) ∧
      (lookupLast fs "result" = some (PyVal.vobj fs2) →
        lookupLast fs2 "content" = some (PyVal.varr (PyVal.vobj fs3 :: rest)) →
        lookupLast fs3 "text" = none →
        extractText (PyVal.vobj fs) = Except.ok (PyVal.vstr "")) ∧
      (lookupLast fs "result" = some (PyVal.vobj fs2) →
        lookupLast fs2 "content" = some (PyVal.varr []) →
        extractText (PyVal.vobj fs) = Except.error "IndexError") := by
  intro fs fs2 fs3 rest
  refine ⟨?_, ?_, ?_, ?_⟩
  · intro h1; simp [extractText, h1, lookupLast]
  · intro h1 h2; simp [extractText, h1, h2, lookupLast]
  · intro h1 h2 h3; simp [extractText, h1, h2, h3, lookupLast]
  · intro h1 h2; simp [extractText, h1, h2, lookupLast]

/-- Counterexample to C2 as stated: a response whose `content` is a
present but empty list makes the extraction raise `IndexError` instead of
yielding the empty string. -/
theorem C2_cex :
    extractText (PyVal.vobj [("result", PyVal.vobj [("content", PyVal.varr [])])]) =
      Except.error "IndexError" := rfl

/-- Witness for C2 (amended): the error-tagged gateway response (no
`result` key) yields the empty string. -/
theorem C2_witness :
    extractText (PyVal.vobj [("error", PyVal.vstr "MCP call failed for get_weather")]) =
      Except.ok (PyVal.vstr "") :=
  (C2_extraction_amended [("error", PyVal.vstr "MCP call failed for get_weather")]
    [] [] []).1 rfl

/-- Claim C3: the alert policy fires iff the dispatched tool is
`get_weather` and the non-empty result text contains an alert keyword
case-insensitively (never for `send_notification` results), and on fire
the secondary invocation is `send_notification` with argument
`text ++ "|weather_alerts"`. -/
theorem C3_alert_policy :
    ∀ (tool : PyVal) (text : String),
      (alertFires tool text = true ↔
        tool = PyVal.vstr "get_weather" ∧ text ≠ "" ∧
          ∃ k, k ∈ ALERT_KEYWORDS ∧ strHas (pyLower text) k = true) ∧
      (alertFires tool text = true →
        alertInvocation tool text =
          some ("send_notification",
            PyVal.vobj [("notification_input", PyVal.vstr (text ++ "|weather_alerts"))])) ∧
      alertFires (PyVal.vstr "send_notification") text = false := by
  intro tool text
  refine ⟨?_, ?_, ?_⟩
  · by_cases htext : text = ""
    · simp [alertFires, htext]
    · simp [alertFires, htext, pyEqStr_iff, List.any_eq_true]
  · intro hfire
    simp [alertInvocation, hfire]
  · by_cases htext : text = "" <;> simp [alertFires, htext, pyEqStr]

/-- Witness for C3: a rainy `get_weather` result fires with the expected
payload, and the same text on `send_notification` does not fire. -/
theorem C3_witness :
    alertInvocation (PyVal.vstr "get_weather") "Light Rain expected" =
      some ("send_notification",
        PyVal.vobj [("notification_input",
          PyVal.vstr "Light Rain expected|weather_alerts")]) ∧
    alertFires (PyVal.vstr "send_notification") "Light Rain expected" = false :=
  ⟨(C3_alert_policy (PyVal.vstr "get_weather") "Light Rain expected").2.1 (by decide),
   (C3_alert_policy (PyVal.vstr "send_notification") "Light Rain expected").2.2⟩

/-- Claim C4: a user input containing `weather` (case-insensitively), when
the model text yields no structured call, resolves to `get_weather` with
`city` the first match of the pattern `in <words>` in the user input
(`extract_city`), defaulting to `Chennai`. -/
theorem C4_weather_fallback :
    ∀ (u m : String),
      truthy (detect_tool_call m).fst = false →
      strHas (pyLower u) "weather" = true →
      resolveIntent u m =
        some (PyVal.vstr "get_weather",
          PyVal.vobj [("city", PyVal.vstr (extract_city u))]) := by
  intro u m h1 h2
  simp [resolveIntent, h1, h2]
  rfl

/-- Witness for C4: spec scenario 1, `weather in Paris` with unparseable
model text. -/
theorem C4_witness :
    resolveIntent "weather in Paris" "I cannot call tools" =
      some (PyVal.vstr "get_weather", PyVal.vobj [("city", PyVal.vstr "Paris")]) := by
  have h := C4_weather_fallback "weather in Paris" "I cannot call tools" rfl rfl
  exact h

/-- Claim C7: the session ends exactly at the first turn whose input is an
exit keyword (case-insensitive, stripped) or that raises
`KeyboardInterrupt`; any other exception inside a turn is caught and the
loop continues to the next input. -/
theorem C7_session_termination :
    ∀ (script : List TurnEvent),
      chatLoop script = List.findIdx? haltsTurn script ∧
      (∀ (s : String), isExit s = false →
        chatStep (TurnEvent.mk s TurnOutcome.raisesExn) = StepResult.nextTurn) := by
  intro script
  constructor
  · induction script with
    | nil => rfl
    | cons e es ih =>
      by_cases hh : haltsTurn e = true
      · have hstep : chatStep e = StepResult.endSession := by
          obtain ⟨s, oc⟩ := e
          cases oc <;>
            simp_all [chatStep, haltsTurn]
        simp [chatLoop, hstep, List.findIdx?_cons, hh]
      · have hstep : chatStep e = StepResult.nextTurn := by
          obtain ⟨s, oc⟩ := e
          cases oc <;>
            simp_all [chatStep, haltsTurn]

        simp [chatLoop, hstep, List.findIdx?_cons, hh, ih, List.findIdx?_succ]
  · intro s hs
    simp [chatStep, hs]

/-- Witness for C7: an exception turn continues the loop, and a script
with a failing middle turn ends exactly at the stripped, upper-case exit
keyword. -/
theorem C7_witness :
    chatStep (TurnEvent.mk "boom mid turn" TurnOutcome.raisesExn) = StepResult.nextTurn ∧
    chatLoop
        [TurnEvent.mk "hello" TurnOutcome.normal,
         TurnEvent.mk "oops" TurnOutcome.raisesExn,
         TurnEvent.mk "  EXIT " TurnOutcome.normal] = some 2 := by
  constructor
  · exact (C7_session_termination []).2 "boom mid turn" rfl
  · rw [(C7_session_termination
      [TurnEvent.mk "hello" TurnOutcome.normal,
       TurnEvent.mk "oops" TurnOutcome.raisesExn,
       TurnEvent.mk "  EXIT " TurnOutcome.normal]).1]
    rfl

/-- Claim C8: a user input containing `notify` or `alert` but not
`weather` (case-insensitively), when the model text yields no structured
call, resolves to `send_notification` with `notification_input` the user
input concatenated with `|general_alerts`. -/
theorem C8_notify_fallback :
    ∀ (u m : String),
      truthy (detect_tool_call m).fst = false →
      strHas (pyLower u) "weather" = false →
      (strHas (pyLower u) "notify" || strHas (pyLower u) "alert") = true →
      resolveIntent u m =
        some (PyVal.vstr "send_notification",
          PyVal.vobj [("notification_input", PyVal.vstr (u ++ "|general_alerts"))]) := by
  intro u m h1 h2 h3
  simp [resolveIntent, h1, h2, h3]
  rfl

/-- Witness for C8: spec scenario 3, `notify the team` with non-JSON model
text. -/
theorem C8_witness :
    resolveIntent "notify the team" "sure, will do" =
      some (PyVal.vstr "send_notification",
        PyVal.vobj [("notification_input", PyVal.vstr "notify the team|general_alerts")]) := by
  have h := C8_notify_fallback "notify the team" "sure, will do" rfl rfl rfl
  exact h

/-- Claim C9: intent resolution is a pure function of the
`(user_input, model_text)` pair — the embedding `resolveIntent` consumes
only its two arguments and the module constants, so resolving the same
pair twice yields identical outcomes. -/
theorem C9_resolution_idempotent :
    ∀ (u m : String), resolveIntent u m = resolveIntent u m :=
  fun _ _ => rfl

end Connector
